import Mathlib

/-!
# Verification of the eBird data ingestion pipeline

A shallow embedding of `src/ebird_data_parse.py` (together with the data model of
`src/models.py`), with theorems settling the behavioural claims about the
ingestion pipeline: scalar-field parsing, the category remap rule, protocol-name
mapping, taxonomy loading, reference-entity deduplication (`get_or_create`),
batch-commit fault semantics and idempotence of the whole pipeline.

Conventions used throughout the embedding:
* Python strings are `String`; a Python value that may be `None` is an `Option`.
* Python `int` is `Int`; `Decimal` and `float` are embedded as `Dec` (they are
  only parsed from short decimal literals and compared for equality here).
* Code that can raise is embedded in `Except PyErr`; the `PyErr` constructor
  records which Python exception class the corresponding `raise` produces.
* Python `dict`s are association lists; `dictInsert` reproduces dict assignment
  (overwrite in place, insertion order preserved), `tlookup` reproduces lookup.
-/

deriving instance DecidableEq for Except

namespace EBird

/-- Python exception classes raised by the parsing code: `KeyError` (dict lookup
and missing-column access), `ValueError` (`int()`, `float()`, `datetime`,
`strptime`, tuple unpacking) and `decimal.InvalidOperation` (`Decimal()`). -/
inductive PyErr where
  | keyError (key : String)
  | valueError
  | invalidOperation
deriving DecidableEq, Repr

/-- Python dynamic values, used to model comparisons between values of
different runtime types (`int(...) == ''` in the source is such a comparison). -/
inductive PyVal where
  | int (n : Int)
  | str (s : String)
deriving DecidableEq, Repr

/-- Python `==` on dynamic values: values of different types are never equal. -/
def pyEq : PyVal → PyVal → Bool
  | .int a, .int b => a == b
  | .str a, .str b => a == b
  | _, _ => false

/-- An exact decimal number `mant / 10 ^ exp`, the embedding of the Python
`Decimal` and `float` values this pipeline parses; values are kept canonical
(`mant` not divisible by 10 unless `exp = 0`) so that equality of embedded
values coincides with Python numeric equality (`1.50 == 1.5`), which is all
the pipeline does with them (dict keys and column values). -/
structure Dec where
  mant : Int
  exp : Nat
deriving DecidableEq, Repr

/-- Canonicalise `m / 10 ^ e` by cancelling factors of 10. -/
def canonDec : Int → Nat → Dec
  | m, 0 => ⟨m, 0⟩
  | m, e + 1 => if m % 10 = 0 then canonDec (m / 10) e else ⟨m, e + 1⟩

/-- Split a character list at every occurrence of the separator (Python
`str.split(sep)` / `re.split` semantics: `n` separators yield `n + 1` tokens,
empty tokens included). -/
def splitPred (p : Char → Bool) : List Char → List (List Char)
  | [] => [[]]
  | c :: cs =>
    if p c then [] :: splitPred p cs
    else
      match splitPred p cs with
      | [] => [[c]]
      | t :: ts => (c :: t) :: ts

/-- Split at every occurrence of a single separator character. -/
def splitOnChar (sep : Char) (cs : List Char) : List (List Char) :=
  splitPred (fun c => c = sep) cs

/-- Value of a decimal digit character, `none` for any other character. -/
def digitVal (c : Char) : Option Nat :=
  if c.isDigit then some (c.toNat - 48) else none

/-- Reads a nonempty all-digit character list as a natural number. -/
def natFromDigits : List Char → Option Nat
  | [] => none
  | cs => cs.foldl (fun acc c => do
      let n ← acc
      let d ← digitVal c
      pure (n * 10 + d)) (some 0)

/-- Embedding of Python `int(...)` on the identifier and count tokens this
pipeline feeds it (digit sequences with an optional leading minus sign);
`none` models the `ValueError` raised on anything else, notably `int('')`. -/
def pyIntChars (cs : List Char) : Option Int :=
  match cs with
  | '-' :: rest => (natFromDigits rest).map (fun n => -(n : Int))
  | cs => (natFromDigits cs).map (fun n => (n : Int))

/-- Python `int(s)` on a whole string. -/
def pyInt (s : String) : Option Int :=
  pyIntChars s.data

/-- Reads an all-digit character list, the empty list standing for 0 (the
integer or fractional part of a decimal literal may be empty). -/
def natFromDigits0 : List Char → Option Nat
  | cs => cs.foldl (fun acc c => do
      let n ← acc
      let d ← digitVal c
      pure (n * 10 + d)) (some 0)

/-- Reads an unsigned decimal literal (digits with an optional single point;
at least one digit overall) as a canonical `Dec`. -/
def unsignedDec (body : List Char) : Option Dec :=
  match splitOnChar '.' body with
  | [ip] => (natFromDigits ip).map (fun n => canonDec (n : Int) 0)
  | [ip, fp] =>
    if ip = [] ∧ fp = [] then none
    else do
      let i ← natFromDigits0 ip
      let f ← natFromDigits0 fp
      pure (canonDec ((i * 10 ^ fp.length + f : Nat) : Int) fp.length)
  | _ => none

/-- Embedding of Python `Decimal(s)` / `float(s)` on the decimal literals this
pipeline feeds them (optional sign, digits, optional fractional part); `none`
models the exception raised on malformed input such as the empty string. -/
def parseDecimal (s : String) : Option Dec :=
  match s.data with
  | '-' :: body => (unsignedDec body).map (fun d => canonDec (-d.mant) d.exp)
  | body => unsignedDec body

/-- A Python `datetime.datetime` value (microseconds are always 0 here). -/
structure DateTime where
  year : Nat
  month : Nat
  day : Nat
  hour : Nat
  minute : Nat
  second : Nat
deriving DecidableEq, Repr

/-- Gregorian leap-year rule, as used by `datetime`. -/
def isLeap (y : Nat) : Bool :=
  (y % 4 == 0 && y % 100 != 0) || y % 400 == 0

/-- Number of days in a month of a given year. -/
def daysInMonth (y m : Nat) : Nat :=
  if m = 2 then (if isLeap y then 29 else 28)
  else if m = 4 ∨ m = 6 ∨ m = 9 ∨ m = 11 then 30
  else 31

/-- Embedding of the `datetime.datetime(y, mo, d, h, mi, s, 0)` constructor:
`none` models the `ValueError` raised on out-of-range components
(`MINYEAR = 1`, `MAXYEAR = 9999`). -/
def mkDatetime (y mo d h mi s : Int) : Option DateTime :=
  if 1 ≤ y ∧ y ≤ 9999 then
    if 1 ≤ mo ∧ mo ≤ 12 then
      if 1 ≤ d ∧ (d : Int) ≤ (daysInMonth y.toNat mo.toNat : Int) then
        if 0 ≤ h ∧ h ≤ 23 ∧ 0 ≤ mi ∧ mi ≤ 59 ∧ 0 ≤ s ∧ s ≤ 59 then
          some ⟨y.toNat, mo.toNat, d.toNat, h.toNat, mi.toNat, s.toNat⟩
        else none
      else none
    else none
  else none

/-- The separator test of the `re.split(r'[/\-]', date_str)` call in
`parse_date`: the character class contains `/` and an escaped hyphen — the
backslash in the pattern is an escape, not a third accepted separator. -/
def dateSeparator (c : Char) : Bool :=
  c = '/' ∨ c = '-'

/-- Embedding of `parse_date`: split on the separators, convert every token
with `int()`, and unpack into exactly three values `year, month, day` (note
the code binds the tokens positionally in year-month-day order even though
its docstring says the input has the form mm-dd-yyyy). -/
def parse_date (date_str : String) : Except PyErr (Int × Int × Int) :=
  match (splitPred dateSeparator date_str.data).mapM pyIntChars with
  | none => .error .valueError
  | some ints =>
    match ints with
    | [year, month, day] => .ok (year, month, day)
    | _ => .error .valueError

/-- Embedding of `parse_time`: split on `:` and unpack into hours, minutes,
seconds. -/
def parse_time (time_str : String) : Except PyErr (Int × Int × Int) :=
  match (splitOnChar ':' time_str.data).mapM pyIntChars with
  | none => .error .valueError
  | some ints =>
    match ints with
    | [h, m, s] => .ok (h, m, s)
    | _ => .error .valueError

/-- Embedding of `parse_start_duration`: the duration (in minutes, as a
`timedelta`) is parsed first, then the start timestamp according to which of
the date and time fields are empty. `datetime(...)` validity failures are
`ValueError`s. -/
def parse_start_duration (checklist_date checklist_time checklist_duration : String) :
    Except PyErr (Option DateTime × Option Int) :=
  match (if checklist_duration = "" then some (none : Option Int)
         else (pyInt checklist_duration).map some) with
  | none => .error .valueError
  | some duration =>
    if checklist_date = "" ∧ checklist_time = "" then
      .ok (none, duration)
    else if checklist_date ≠ "" ∧ checklist_time = "" then
      match parse_date checklist_date with
      | .error e => .error e
      | .ok (year, month, day) =>
        match mkDatetime year month day 0 0 0 with
        | none => .error .valueError
        | some dt => .ok (some dt, duration)
    else
      match parse_date checklist_date with
      | .error e => .error e
      | .ok (year, month, day) =>
        match parse_time checklist_time with
        | .error e => .error e
        | .ok (h, m, s) =>
          match mkDatetime year month day h m s with
          | none => .error .valueError
          | some dt => .ok (some dt, duration)

/-- Embedding of `datetime.strptime(s, "%Y-%m-%d %H:%M:%S")` on the
`LAST EDITED DATE` field. -/
def strptimeYmdHms (s : String) : Option DateTime :=
  match splitOnChar ' ' s.data with
  | [d, t] =>
    match splitOnChar '-' d, splitOnChar ':' t with
    | [y, mo, da], [h, mi, se] => do
      let y ← pyIntChars y
      let mo ← pyIntChars mo
      let da ← pyIntChars da
      let h ← pyIntChars h
      let mi ← pyIntChars mi
      let se ← pyIntChars se
      mkDatetime y mo da h mi se
    | _, _ => none
  | _ => none

/-- Embedding of `decimal_or_none`. -/
def decimal_or_none (d : String) : Except PyErr (Option Dec) :=
  if d = "" then .ok none
  else
    match parseDecimal d with
    | none => .error .invalidOperation
    | some q => .ok (some q)

/-- Embedding of `int_or_none`, on an already-sliced character list. -/
def int_or_none (i : List Char) : Except PyErr (Option Int) :=
  if i = [] then .ok none
  else
    match pyIntChars i with
    | none => .error .valueError
    | some n => .ok (some n)

/-- Embedding of `bool(int(s))` as used on the flag columns. -/
def pyBoolOfInt (s : String) : Except PyErr Bool :=
  match pyInt s with
  | none => .error .valueError
  | some n => .ok (n != 0)

/-- Association-list lookup with decidable key equality; this is both Python
dict lookup and the `filter_by(key).one()` query of `get_or_create`. -/
def tlookup {K V : Type} [DecidableEq K] : List (K × V) → K → Option V
  | [], _ => none
  | (k0, v) :: rest, k => if k = k0 then some v else tlookup rest k

/-- Python dict assignment `d[k] = v`: overwrite in place if the key is
present, otherwise append, preserving insertion order. -/
def dictInsert {K V : Type} [DecidableEq K] (k : K) (v : V) :
    List (K × V) → List (K × V)
  | [] => [(k, v)]
  | (k0, v0) :: rest =>
    if k = k0 then (k, v) :: rest else (k0, v0) :: dictInsert k v rest

/-- The `conversion` dict of `protocol_words_to_code`, verbatim. -/
def conversion : List (String × String) :=
  [("Incidental", "20"),
   ("Stationary", "21"),
   ("Traveling", "22"),
   ("Area", "23"),
   ("Trail Tracker", "30"),
   ("Banding", "33"),
   ("Waterbird Count", "34"),
   ("RMBO Early Winter Waterbird Count", "34"),
   ("My Yard Counts", "35"),
   ("LoonWatch", "39"),
   ("Standardized Yard Count", "40"),
   ("Rusty Blackbird Spring Migration Blitz", "41"),
   ("Yellow-billed Magpie Survey - General Observations", "44"),
   ("Yellow-billed Magpie Survey - Traveling Count", "45"),
   ("CWC Point Count", "46"),
   ("CWC Area Search", "47"),
   ("Random", "48"),
   ("Coastal Shorebird Survey", "49"),
   ("Caribbean Martin Survey", "50"),
   ("Greater Gulf Refuge Waterbird Count", "51"),
   ("Oiled Birds", "52"),
   ("Nocturnal Flight Call Count", "54"),
   ("Heron Stationary Count*", "55"),
   ("Heron Area Count", "56"),
   ("Great Texas Birding Classic", "57"),
   ("Audubon Coastal Bird Survey", "58"),
   ("TNC California Waterbird Count", "59"),
   ("eBird Pelagic Protocol", "60"),
   ("IBA Canada (protocol)", "61"),
   ("Historical", "62"),
   ("Traveling - Property Specific", "64"),
   ("Breeding Bird Atlas", "65"),
   ("Birds \x27n\x27 Bogs Survey", "66"),
   ("CAC--Common Bird Survey", "67"),
   ("RAM--Iberian Seawatch Network", "68"),
   ("California Brown Pelican Survey", "69"),
   ("BirdLife Australia 20min-2ha survey", "70"),
   ("BirdLife Australia 500m radius search", "71"),
   ("BirdLife Australia 5 km radius search", "72"),
   ("PROALAS", "73"),
   ("International Shorebird Survey (ISS)", "74"),
   ("Tricolored Blackbird Winter Survey", "75")]

/-- Embedding of `protocol_words_to_code`: dict lookup in `conversion`;
`none` models the `KeyError` raised for a protocol name outside the table. -/
def protocol_words_to_code (protocol : String) : Option String :=
  tlookup conversion protocol

/-! ## Taxonomy loader (`parse_ebird_taxonomy`, `parsed_taxa_csv_to_db`) -/

/-- One row of the taxonomy CSV (`eBird_Taxonomy_*.csv`), named by its columns. -/
structure TaxRow where
  commonName : String
  sciName : String
  taxonOrder : String
  category : String
  reportAs : String
  speciesCode : String
deriving DecidableEq, Repr

/-- Value stored in the `species` dict built by `parse_ebird_taxonomy`. -/
structure SpeciesInfo where
  common_name : String
  scientific_name : String
  species_code : String
deriving DecidableEq, Repr

/-- Value stored in the `subspecies` dict built by `parse_ebird_taxonomy`. -/
structure SubspInfo where
  common_name : String
  scientific_name : String
  category : String
  parent_scientific_name : Option String
  subspecies_code : String
deriving DecidableEq, Repr

/-- The three dicts accumulated by the loop of `parse_ebird_taxonomy`:
`species` and `subspecies` are keyed by `Decimal(taxonomic_order)`,
`species_codes` maps a species code to the scientific name and (raw) order of
the row that most recently carried that code. -/
structure TaxAcc where
  species : List (Dec × SpeciesInfo)
  subspecies : List (Dec × SubspInfo)
  species_codes : List (String × (String × String))
deriving DecidableEq, Repr

/-- The empty accumulator the loader starts from. -/
def initTaxAcc : TaxAcc := ⟨[], [], []⟩

/-- The parent-resolution of lines 95-97: an empty `REPORT_AS` means no
parent; otherwise the parent's scientific name is the first component of the
running `species_codes` entry for that code, and a missing entry raises the
`KeyError` of the dict subscript. -/
def resolveParent (codes : List (String × (String × String)))
    (reportAs : String) : Except PyErr (Option String) :=
  if reportAs = "" then .ok none
  else
    match tlookup codes reportAs with
    | some e => .ok (some e.1)
    | none => .error (.keyError reportAs)

/-- One iteration of the `parse_ebird_taxonomy` loop, in source order: record
the row's own code in `species_codes` first, convert the taxonomic order with
`Decimal`, resolve a non-empty parent code by dict lookup (a `KeyError` if the
code has not been recorded by any row so far, the current one included), then
file the row into the `species` or `subspecies` dict by category. -/
def taxStep (acc : TaxAcc) (r : TaxRow) : Except PyErr TaxAcc :=
  let codes := dictInsert r.speciesCode (r.sciName, r.taxonOrder) acc.species_codes
  match parseDecimal r.taxonOrder with
  | none => .error .invalidOperation
  | some taxa =>
    match resolveParent codes r.reportAs with
    | .error e => .error e
    | .ok parent_scientific_name =>
      if r.category = "species" then
        .ok { acc with
              species := dictInsert taxa
                ⟨r.commonName, r.sciName, r.speciesCode⟩ acc.species,
              species_codes := codes }
      else
        .ok { acc with
              subspecies := dictInsert taxa
                ⟨r.commonName, r.sciName, r.category, parent_scientific_name,
                 r.speciesCode⟩ acc.subspecies,
              species_codes := codes }

/-- The loop of `parse_ebird_taxonomy` over the remaining rows. -/
def taxFold (acc : TaxAcc) : List TaxRow → Except PyErr TaxAcc
  | [] => .ok acc
  | r :: rs =>
    match taxStep acc r with
    | .error e => .error e
    | .ok acc1 => taxFold acc1 rs

/-- Embedding of `parse_ebird_taxonomy` on the already-read CSV rows. -/
def parse_ebird_taxonomy (rows : List TaxRow) : Except PyErr TaxAcc :=
  taxFold initTaxAcc rows

/-- The `species_codes` table built from a list of rows: each row assigns
`species_codes[species_code] = (sci_name, taxon_order)` in file order. -/
def buildCodes (rows : List TaxRow) : List (String × (String × String)) :=
  rows.foldl (fun d r => dictInsert r.speciesCode (r.sciName, r.taxonOrder) d) []

/-! ## Observation dump rows and per-row field parsing -/

/-- One row of the tab-delimited observation dump, named by its columns
(every field is the raw string read by `csv.DictReader`). -/
structure DumpRow where
  globalUniqueIdentifier : String
  samplingEventIdentifier : String
  observationCount : String
  ageSex : String
  speciesComments : String
  category : String
  scientificName : String
  subspeciesScientificName : String
  observationDate : String
  timeObservationsStarted : String
  durationMinutes : String
  tripComments : String
  effortDistanceKm : String
  effortAreaHa : String
  numberObservers : String
  allSpeciesReported : String
  groupIdentifier : String
  approved : String
  reviewed : String
  reason : String
  protocolType : String
  projectCode : String
  observerId : String
  latitude : String
  longitude : String
  locality : String
  localityId : String
  localityType : String
  stateCode : String
  countyCode : String
  county : String
  state : String
  country : String
  countryCode : String
  hasMedia : String
  lastEditedDate : String
deriving DecidableEq, Repr

/-- The category remap of lines 185-196 of `ebird_data_parse.py`: normalise an
empty subspecies name to `None`, then — `spuh`/`slash`/`hybrid`: move the
scientific name into the subspecies slot and null the species slot;
`domestic`/`form` whose scientific name is already a known subspecies name:
null the species slot (the line that would copy the name into the subspecies
slot is commented out in the source); every other category: keep both as they
are.  Returns `(scientific_name, subspecies_scientific_name)` as they stand
after those lines. -/
def remapTaxa (subspecies_sci_names : List String) (category sci subRaw : String) :
    Option String × Option String :=
  let subspecies_scientific_name : Option String :=
    if subRaw = "" then none else some subRaw
  if category = "spuh" ∨ category = "slash" ∨ category = "hybrid" then
    (none, some sci)
  else if category = "domestic" ∨ category = "form" then
    if sci ∈ subspecies_sci_names then (none, subspecies_scientific_name)
    else (some sci, subspecies_scientific_name)
  else (some sci, subspecies_scientific_name)

/-- The `OBSERVATION COUNT` handling of lines 168-174: the literal `X` means
an indeterminate count (`None` with the `is_x` flag set), anything else is
kept verbatim. -/
def numberObservedIsX (obs_count : String) : Option String × Bool :=
  if obs_count = "X" then (none, true) else (some obs_count, false)

/-- The observer null check of lines 250-253: `observer_id` has already been
converted with `int()`, so the `observer_id == ''` guard compares an `int`
with a `str` — in Python such a comparison is simply `False`, making the
`None` branch unreachable. -/
def observerOrNone (observer_id : Int) : Option Int :=
  if pyEq (.int observer_id) (.str "") then none else some observer_id

/-- The normalised field bundle one loop iteration of `parse_ebird_dump`
extracts from a row before touching the database, named after the Python
locals that hold the values. -/
structure ParsedRow where
  observation_id : Int
  checklist_id : Int
  number_observed : Option String
  is_x : Bool
  age_sex : String
  species_comments : String
  scientific_name : Option String
  subspecies_scientific_name : Option String
  start : Option DateTime
  duration : Option Int
  checklist_comments : String
  distance : Option Dec
  area : Option Dec
  number_of_observers : Option Int
  complete_checklist : Bool
  group_id : Option Int
  approved : Bool
  reviewed : Bool
  reason : String
  proto : String
  project_code : String
  observer_id : Int
  obs : Option Int
  coords : Dec × Dec
  locality_name : String
  locality_id : Int
  locality_type : String
  state_code : String
  county_code : String
  county : String
  state_province : String
  country : String
  country_code : String
  has_media : Bool
  last_edit : Option DateTime
deriving DecidableEq, Repr

/-- Embedding of the field-parsing part of one `parse_ebird_dump` loop
iteration (lines 164-253), with the fallible conversions performed in source
order so that the first failing one determines the exception that propagates.
`subspecies_sci_names` is the set of known subspecies scientific names loaded
before the loop.  The `obs` field records the result of the
`if observer_id == ''` check of lines 250-253, an `int`-to-`str` comparison. -/
def parseRow (subspecies_sci_names : List String) (row : DumpRow) :
    Except PyErr ParsedRow :=
  match pyIntChars (((splitOnChar ':' row.globalUniqueIdentifier.data).getLastD []).drop 3) with
  | none => .error .valueError
  | some observation_id =>
   match pyIntChars (row.samplingEventIdentifier.data.drop 1) with
   | none => .error .valueError
   | some checklist_id =>
    match parse_start_duration row.observationDate row.timeObservationsStarted
        row.durationMinutes with
    | .error e => .error e
    | .ok startDuration =>
     match decimal_or_none row.effortDistanceKm with
     | .error e => .error e
     | .ok distance =>
      match decimal_or_none row.effortAreaHa with
      | .error e => .error e
      | .ok area =>
       match int_or_none row.numberObservers.data with
       | .error e => .error e
       | .ok number_of_observers =>
        match pyBoolOfInt row.allSpeciesReported with
        | .error e => .error e
        | .ok complete_checklist =>
         match int_or_none (row.groupIdentifier.data.drop 1) with
         | .error e => .error e
         | .ok group_id =>
          match pyBoolOfInt row.approved with
          | .error e => .error e
          | .ok approved =>
           match pyBoolOfInt row.reviewed with
           | .error e => .error e
           | .ok reviewed =>
            match protocol_words_to_code row.protocolType with
            | none => .error (.keyError row.protocolType)
            | some proto =>
             match pyIntChars (row.observerId.data.drop 4) with
             | none => .error .valueError
             | some observer_id =>
              match parseDecimal row.latitude with
              | none => .error .valueError
              | some lat =>
               match parseDecimal row.longitude with
               | none => .error .valueError
               | some lon =>
                match pyIntChars (row.localityId.data.drop 1) with
                | none => .error .valueError
                | some locality_id =>
                 match pyBoolOfInt row.hasMedia with
                 | .error e => .error e
                 | .ok has_media =>
                  match (if row.lastEditedDate = "" then .ok none
                         else
                           match strptimeYmdHms row.lastEditedDate with
                           | none => .error .valueError
                           | some dt => .ok (some dt) :
                         Except PyErr (Option DateTime)) with
                  | .error e => .error e
                  | .ok last_edit =>
                   .ok
                    { observation_id := observation_id
                      checklist_id := checklist_id
                      number_observed := (numberObservedIsX row.observationCount).1
                      is_x := (numberObservedIsX row.observationCount).2
                      age_sex := row.ageSex
                      species_comments := row.speciesComments
                      scientific_name :=
                        (remapTaxa subspecies_sci_names row.category
                          row.scientificName row.subspeciesScientificName).1
                      subspecies_scientific_name :=
                        (remapTaxa subspecies_sci_names row.category
                          row.scientificName row.subspeciesScientificName).2
                      start := startDuration.1
                      duration := startDuration.2
                      checklist_comments := row.tripComments
                      distance := distance
                      area := area
                      number_of_observers := number_of_observers
                      complete_checklist := complete_checklist
                      group_id := group_id
                      approved := approved
                      reviewed := reviewed
                      reason := row.reason
                      proto := proto
                      project_code := row.projectCode
                      observer_id := observer_id
                      obs := observerOrNone observer_id
                      coords := (lon, lat)
                      locality_name := row.locality
                      locality_id := locality_id
                      locality_type := row.localityType
                      state_code := row.stateCode
                      county_code := row.countyCode
                      county := row.county
                      state_province := row.state
                      country := row.country
                      country_code := row.countryCode
                      has_media := has_media
                      last_edit := last_edit }

/-! ## The relational store and `get_or_create`

Each table of `models.py` is an association list from its primary key to the
rest of the record.  `Location.id` is a synthetic integer primary key assigned
by the database; since `get_or_create` for `Location` filters only on `coords`,
a location is determined by its coordinate pair, and the embedding uses that
pair as the stand-in for the synthetic id wherever `loc.id` is referenced. -/

/-- Embedding of `get_or_create(session, model, defaults, **kwargs)` for the
single-writer pipeline: query the table by the natural key; on a hit return
the existing record (defaults ignored, `created = False`); on a miss insert a
record built from the key and defaults (`created = True`).  The
`IntegrityError` sub-transaction branch only handles a concurrent external
writer and is unreachable in the single-writer semantics embedded here. -/
def getOrCreate {K V : Type} [DecidableEq K] (t : List (K × V)) (k : K) (v : V) :
    (V × Bool) × List (K × V) :=
  match tlookup t k with
  | some v0 => ((v0, false), t)
  | none => ((v, true), (k, v) :: t)

/-- A `location` row minus its key (`coords`). -/
structure LocationRec where
  locality_id : Int
  country_id : String
  state_province_id : String
  county_id : String
deriving DecidableEq, Repr

/-- A `checklist` row minus its key (`checklist`); `location_id` holds the
coordinate pair standing in for the referenced location's synthetic id. -/
structure ChecklistRec where
  location_id : Dec × Dec
  start_date_time : Option DateTime
  checklist_comments : String
  duration : Option Int
  distance : Option Dec
  area : Option Dec
  number_of_observers : Option Int
  complete_checklist : Bool
  group_id : Option Int
  approved : Bool
  reviewed : Bool
  reason : String
  protocol : String
  project_code : String
deriving DecidableEq, Repr

/-- An `observation` row minus its key (`observation`).  `species_id`,
`subspecies_id` and `observer_id` are the nullable reference columns of
`models.py`. -/
structure ObservationRec where
  number_observed : Option String
  is_x : Bool
  age_sex : String
  species_comments : String
  species_id : Option String
  subspecies_id : Option String
  date_last_edit : Option DateTime
  has_media : Bool
  checklist_id : Int
  observer_id : Option Int
deriving DecidableEq, Repr

/-- A `species` row minus its key (`scientific_name`). -/
structure SpeciesRec where
  common_name : String
  taxonomic_order : Dec
  species_code : String
deriving DecidableEq, Repr

/-- A `subspecies` row minus its key (`scientific_name`); `category` is the
integer produced by the `cat` mapping of `parsed_taxa_csv_to_db`. -/
structure SubspeciesRec where
  common_name : String
  taxonomic_order : Dec
  parent_species_id : Option String
  category : Nat
  subspecies_code : String
deriving DecidableEq, Repr

/-- The whole relational store, one association list per table of
`models.py`, each keyed by the natural key `get_or_create` filters on. -/
structure Store where
  countries : List (String × String)
  states : List (String × String)
  counties : List (String × String)
  localities : List (Int × (String × String))
  observers : List (Int × Unit)
  species : List (String × SpeciesRec)
  subspecies : List (String × SubspeciesRec)
  locations : List ((Dec × Dec) × LocationRec)
  checklists : List (Int × ChecklistRec)
  observations : List (Int × ObservationRec)
deriving DecidableEq, Repr

/-- The store with every table empty. -/
def emptyStore : Store := ⟨[], [], [], [], [], [], [], [], [], []⟩

/-- The `Location` defaults built from a row (line 256): the raw locality,
country, state and county codes of that row. -/
def locationRecordOf (p : ParsedRow) : LocationRec :=
  ⟨p.locality_id, p.country_code, p.state_code, p.county_code⟩

/-- The `Checklist` defaults built from a row (lines 259-270). -/
def checklistRecordOf (p : ParsedRow) : ChecklistRec :=
  ⟨p.coords, p.start, p.checklist_comments, p.duration, p.distance, p.area,
   p.number_of_observers, p.complete_checklist, p.group_id, p.approved,
   p.reviewed, p.reason, p.proto, p.project_code⟩

/-- The `Observation` defaults built from a row (lines 273-288). -/
def observationRecordOf (p : ParsedRow) : ObservationRec :=
  ⟨p.number_observed, p.is_x, p.age_sex, p.species_comments, p.scientific_name,
   p.subspecies_scientific_name, p.last_edit, p.has_media, p.checklist_id,
   p.obs⟩

/-- The database effect of one `parse_ebird_dump` loop iteration (lines
238-288): `get_or_create` each reference entity in dependency order —
state, county, locality, country, observer (skipped when `obs` is `None`) —
then the location keyed by its coordinates, the checklist keyed by its id, and
the observation keyed by its id.  The caches wrapped around these calls in the
source only memoise results and never change what is stored. -/
def updateStore (s : Store) (p : ParsedRow) : Store :=
  { s with
    countries := (getOrCreate s.countries p.country_code p.country).2
    states := (getOrCreate s.states p.state_code p.state_province).2
    counties := (getOrCreate s.counties p.county_code p.county).2
    localities := (getOrCreate s.localities p.locality_id
      (p.locality_type, p.locality_name)).2
    observers :=
      match p.obs with
      | none => s.observers
      | some oid => (getOrCreate s.observers oid ()).2
    locations := (getOrCreate s.locations p.coords (locationRecordOf p)).2
    checklists := (getOrCreate s.checklists p.checklist_id
      (checklistRecordOf p)).2
    observations := (getOrCreate s.observations p.observation_id
      (observationRecordOf p)).2 }

/-- The store trace of the `parse_ebird_dump` row loop from a given store:
parse each row in order and apply its database effect; the first exception
aborts the run.  (Batch commits do not change the final store of a successful
run; `runLoop` below models them for the fault-path claims.) -/
def processDump (subspecies_sci_names : List String) (s : Store) :
    List DumpRow → Except PyErr Store
  | [] => .ok s
  | r :: rs =>
    match parseRow subspecies_sci_names r with
    | .error e => .error e
    | .ok p => processDump subspecies_sci_names (updateStore s p) rs

/-- The `cat` dict of `parsed_taxa_csv_to_db` (line 113). -/
def catList : List (String × Nat) :=
  [("issf", 0), ("form", 1), ("domestic", 2), ("slash", 3), ("intergrade", 4),
   ("spuh", 5), ("hybrid", 6)]

/-- Iterated `get_or_create` over one table: each element of the list is
resolved-or-created in order, with its key and defaults extracted by the two
projections. -/
def gocFold {K V A : Type} [DecidableEq K] (key : A → K) (val : A → V)
    (t : List (K × V)) : List A → List (K × V)
  | [] => t
  | a :: rest => gocFold key val (getOrCreate t (key a) (val a)).2 rest

/-- Natural key of an entry of the taxonomy loader's `species` dict: its
scientific name (the primary key `get_or_create` filters on). -/
def spKey (kv : Dec × SpeciesInfo) : String := kv.2.scientific_name

/-- The `species_data` defaults built from an entry of the `species` dict. -/
def spVal (kv : Dec × SpeciesInfo) : SpeciesRec :=
  ⟨kv.2.common_name, kv.1, kv.2.species_code⟩

/-- The species half of `parsed_taxa_csv_to_db`: iterate the `species` dict in
insertion order and `get_or_create` each entry keyed by scientific name; only
the species table is touched. -/
def speciesToDb (s : Store) (l : List (Dec × SpeciesInfo)) : Store :=
  { s with species := gocFold spKey spVal s.species l }

/-- The subspecies half of `parsed_taxa_csv_to_db`: for each entry the
category is first converted through the `cat` dict (a `KeyError` for a
category outside it), then the entry is `get_or_create`d keyed by scientific
name. -/
def subspToDb (s : Store) : List (Dec × SubspInfo) → Except PyErr Store
  | [] => .ok s
  | kv :: rest =>
    match tlookup catList kv.2.category with
    | none => .error (.keyError kv.2.category)
    | some c =>
      subspToDb
        { s with subspecies :=
            (getOrCreate s.subspecies kv.2.scientific_name
              ⟨kv.2.common_name, kv.1, kv.2.parent_scientific_name, c,
               kv.2.subspecies_code⟩).2 }
        rest

/-- Embedding of `parsed_taxa_csv_to_db` applied to already-parsed taxonomy
rows: load the species dict, then the subspecies dict. -/
def taxaToDb (s : Store) (acc : TaxAcc) : Except PyErr Store :=
  subspToDb (speciesToDb s acc.species) acc.subspecies

/-- Embedding of `parse_ebird_dump(file, 0, taxa)` as a store transformer: the
optional taxonomy load (lines 143-145), then the known-subspecies name set
read from the store (line 148), then the row loop. -/
def pipeline (taxa : Option (List TaxRow)) (rows : List DumpRow) (s : Store) :
    Except PyErr Store :=
  match taxa with
  | none => processDump (s.subspecies.map Prod.fst) s rows
  | some trs =>
    match parse_ebird_taxonomy trs with
    | .error e => .error e
    | .ok acc =>
      match taxaToDb s acc with
      | .error e => .error e
      | .ok s1 => processDump (s1.subspecies.map Prod.fst) s1 rows

/-! ## Batch-commit and fault semantics of the row loop -/

/-- Number of processed rows between commits (`COMMIT_BATCH`). -/
def COMMIT_BATCH : Nat := 1000

/-- Outcome of a run of the row loop: the durably committed store when the
loop ends, and the exception that propagates to the caller, if any. -/
structure RunResult where
  committed : Store
  outcome : Option PyErr
deriving DecidableEq, Repr

/-- The `parse_ebird_dump` row loop with its commit bookkeeping (lines
157-312): rows below `start_row` are skipped; each processed row's work is
staged; every `COMMIT_BATCH` processed rows the staged store is committed.  A
`KeyError` is caught by the format-mismatch handler of line 299, which
re-raises **without** committing; any other exception is caught by the
handler of line 306, which commits the staged work and then re-raises; a
clean finish commits everything (line 312). -/
def runLoop (subspecies_sci_names : List String) (start_row : Nat)
    (committed staged : Store) (count : Nat) : List DumpRow → RunResult
  | [] => ⟨staged, none⟩
  | r :: rs =>
    if count < start_row then
      runLoop subspecies_sci_names start_row committed staged (count + 1) rs
    else
      match parseRow subspecies_sci_names r with
      | .error (.keyError k) => ⟨committed, some (.keyError k)⟩
      | .error e => ⟨staged, some e⟩
      | .ok p =>
        let staged1 := updateStore staged p
        if (count + 1) % COMMIT_BATCH = 0 then
          runLoop subspecies_sci_names start_row staged1 staged1 (count + 1) rs
        else
          runLoop subspecies_sci_names start_row committed staged1 (count + 1) rs

/-- A whole run of the row loop from a store: nothing is committed yet, the
staged session state starts equal to the durable store. -/
def runDump (subspecies_sci_names : List String) (start_row : Nat) (s : Store)
    (rows : List DumpRow) : RunResult :=
  runLoop subspecies_sci_names start_row s s 0 rows

/-- A table holds at most one record per natural key. -/
def tableNodup {K V : Type} (t : List (K × V)) : Prop :=
  (t.map Prod.fst).Nodup

/-- Every table of the store holds exactly one canonical record per natural
key. -/
def Store.NodupKeys (s : Store) : Prop :=
  tableNodup s.countries ∧ tableNodup s.states ∧ tableNodup s.counties ∧
  tableNodup s.localities ∧ tableNodup s.observers ∧ tableNodup s.species ∧
  tableNodup s.subspecies ∧ tableNodup s.locations ∧ tableNodup s.checklists ∧
  tableNodup s.observations

instance decTableNodup {K V : Type} [DecidableEq K] (t : List (K × V)) :
    Decidable (tableNodup t) :=
  inferInstanceAs (Decidable (t.map Prod.fst).Nodup)

instance decNodupKeys (s : Store) : Decidable s.NodupKeys := by
  unfold Store.NodupKeys
  infer_instance

/-- Every natural key a parsed row resolves already has a record in the
store. -/
def Store.hasRowKeys (s : Store) (p : ParsedRow) : Prop :=
  (tlookup s.states p.state_code).isSome ∧
  (tlookup s.counties p.county_code).isSome ∧
  (tlookup s.localities p.locality_id).isSome ∧
  (tlookup s.countries p.country_code).isSome ∧
  (∀ oid, p.obs = some oid → (tlookup s.observers oid).isSome) ∧
  (tlookup s.locations p.coords).isSome ∧
  (tlookup s.checklists p.checklist_id).isSome ∧
  (tlookup s.observations p.observation_id).isSome

/-! ## Concrete rows used by witnesses and counterexamples -/

/-- A fully well-formed observation dump row (category `species`). -/
def wRow : DumpRow :=
  { globalUniqueIdentifier := "URN:CornellLabOfOrnithology:EBIRD:OBS1"
    samplingEventIdentifier := "S2"
    observationCount := "3"
    ageSex := ""
    speciesComments := ""
    category := "species"
    scientificName := "Ardea alba"
    subspeciesScientificName := ""
    observationDate := "2015-03-04"
    timeObservationsStarted := "07:30:00"
    durationMinutes := "45"
    tripComments := ""
    effortDistanceKm := "1.5"
    effortAreaHa := ""
    numberObservers := "2"
    allSpeciesReported := "1"
    groupIdentifier := ""
    approved := "1"
    reviewed := "0"
    reason := ""
    protocolType := "Stationary"
    projectCode := "EBIRD"
    observerId := "obsr123"
    latitude := "42.5"
    longitude := "-76.25"
    locality := "Stewart Park"
    localityId := "L99"
    localityType := "H"
    stateCode := "US-NY"
    countyCode := "US-NY-109"
    county := "Tompkins"
    state := "New York"
    country := "United States"
    countryCode := "US"
    hasMedia := "0"
    lastEditedDate := "" }

/-- A default field bundle, used only as the fallback of `Option.getD` when
naming the parse result of a concrete row. -/
def defaultParsedRow : ParsedRow where
  observation_id := 0
  checklist_id := 0
  number_observed := none
  is_x := false
  age_sex := ""
  species_comments := ""
  scientific_name := none
  subspecies_scientific_name := none
  start := none
  duration := none
  checklist_comments := ""
  distance := none
  area := none
  number_of_observers := none
  complete_checklist := false
  group_id := none
  approved := false
  reviewed := false
  reason := ""
  proto := ""
  project_code := ""
  observer_id := 0
  obs := none
  coords := (⟨0, 0⟩, ⟨0, 0⟩)
  locality_name := ""
  locality_id := 0
  locality_type := ""
  state_code := ""
  county_code := ""
  county := ""
  state_province := ""
  country := ""
  country_code := ""
  has_media := false
  last_edit := none

/-- The parse of `wRow` with no known subspecies names. -/
def wParsed : ParsedRow := (parseRow [] wRow).toOption.getD defaultParsedRow

/-- `wRow` relabelled as a `spuh` with junk in the subspecies column. -/
def wRowSpuh : DumpRow :=
  { wRow with
    category := "spuh"
    scientificName := "Ardea sp."
    subspeciesScientificName := "leftover junk" }

/-- The parse of `wRowSpuh`. -/
def wParsedSpuh : ParsedRow := (parseRow [] wRowSpuh).toOption.getD defaultParsedRow

/-- `wRow` relabelled as an `issf` row carrying both a species-level and a
subspecies-level scientific name, as real issf rows do. -/
def wRowIssf : DumpRow :=
  { wRow with
    category := "issf"
    scientificName := "Setophaga coronata"
    subspeciesScientificName := "Setophaga coronata auduboni" }

/-- The parse of `wRowIssf`. -/
def wParsedIssf : ParsedRow := (parseRow [] wRowIssf).toOption.getD defaultParsedRow

/-- A known-subspecies name set containing the domestic form reported by
`wRowDom`. -/
def ksDom : List String := ["Anas platyrhynchos (Domestic type)"]

/-- `wRow` relabelled as a `domestic` row whose scientific name is already a
known subspecies and whose subspecies column is empty. -/
def wRowDom : DumpRow :=
  { wRow with
    category := "domestic"
    scientificName := "Anas platyrhynchos (Domestic type)"
    subspeciesScientificName := "" }

/-- The parse of `wRowDom` against `ksDom`. -/
def wParsedDom : ParsedRow := (parseRow ksDom wRowDom).toOption.getD defaultParsedRow

/-- A species row whose code a later row reports as. -/
def wTaxRow0 : TaxRow :=
  ⟨"Mallard", "Anas platyrhynchos", "5", "species", "", "mallar3"⟩

/-- A domestic row reporting as `mallar3`, defined after `wTaxRow0`. -/
def wTaxRowR : TaxRow :=
  ⟨"Mallard (Domestic type)", "Anas platyrhynchos (Domestic type)", "5.1",
   "domestic", "mallar3", "x00776"⟩

/-- The loader state after the one-row prefix `[wTaxRow0]`. -/
def wTaxAcc : TaxAcc := (taxFold initTaxAcc [wTaxRow0]).toOption.getD initTaxAcc

/-- A second row at the same point as `wRow` with different locality,
country, state and county values. -/
def wRow2 : DumpRow :=
  { wRow with
    globalUniqueIdentifier := "URN:CornellLabOfOrnithology:EBIRD:OBS7"
    samplingEventIdentifier := "S8"
    locality := "Renamed Park"
    localityId := "L500"
    localityType := "P"
    stateCode := "US-VT"
    countyCode := "US-VT-007"
    county := "Chittenden"
    state := "Vermont"
    country := "Canada"
    countryCode := "CA" }

/-- The parse of `wRow2`. -/
def wParsed2 : ParsedRow := (parseRow [] wRow2).toOption.getD defaultParsedRow

/-- The pipeline result on the concrete taxonomy and single-row dump, used
as the idempotence witness. -/
def wStore : Store :=
  (pipeline (some [wTaxRow0, wTaxRowR]) [wRow] emptyStore).toOption.getD
    emptyStore

/-- A valid row followed by this one exercises the unrecognized-protocol
fault: every field parses except `PROTOCOL TYPE`. -/
def wRowBadProto : DumpRow :=
  { wRow with
    globalUniqueIdentifier := "URN:CornellLabOfOrnithology:EBIRD:OBS9"
    samplingEventIdentifier := "S10"
    protocolType := "Bogus Protocol" }

/-- A row with a malformed scalar (`DURATION MINUTES` is not an integer),
exercising the generic-exception path. -/
def wRowBadDuration : DumpRow :=
  { wRow with
    globalUniqueIdentifier := "URN:CornellLabOfOrnithology:EBIRD:OBS11"
    samplingEventIdentifier := "S12"
    durationMinutes := "abc" }

/-! ## Generic lemmas about tables, `dictInsert` and `get_or_create` -/

section TableLemmas

variable {K V : Type} [DecidableEq K]

theorem tlookup_isSome_iff (t : List (K × V)) (k : K) :
    (tlookup t k).isSome ↔ k ∈ t.map Prod.fst := by
  induction t with
  | nil => simp [tlookup]
  | cons kv rest ih =>
    obtain ⟨k0, v0⟩ := kv
    by_cases h : k = k0 <;> simp [tlookup, h, ih]

theorem tlookup_mem {t : List (K × V)} {k : K} {v : V}
    (h : tlookup t k = some v) : (k, v) ∈ t := by
  induction t with
  | nil => simp [tlookup] at h
  | cons kv rest ih =>
    obtain ⟨k0, v0⟩ := kv
    by_cases hk : k = k0
    · simp [tlookup, hk] at h
      simp [hk, h]
    · simp [tlookup, hk] at h
      exact List.mem_cons_of_mem _ (ih h)

theorem tlookup_dictInsert_self (t : List (K × V)) (k : K) (v : V) :
    tlookup (dictInsert k v t) k = some v := by
  induction t with
  | nil => simp [dictInsert, tlookup]
  | cons kv rest ih =>
    obtain ⟨k0, v0⟩ := kv
    by_cases h : k = k0 <;> simp [dictInsert, tlookup, h, ih]

theorem tlookup_dictInsert_ne (t : List (K × V)) {k k1 : K} (v : V)
    (h : k1 ≠ k) : tlookup (dictInsert k v t) k1 = tlookup t k1 := by
  induction t with
  | nil => simp [dictInsert, tlookup, h]
  | cons kv rest ih =>
    obtain ⟨k0, v0⟩ := kv
    by_cases h0 : k = k0
    · subst h0
      simp [dictInsert, tlookup, h]
    · by_cases h1 : k1 = k0 <;> simp [dictInsert, tlookup, h0, h1, ih]

theorem getOrCreate_table_of_isSome {t : List (K × V)} {k : K} (v : V)
    (h : (tlookup t k).isSome) : (getOrCreate t k v).2 = t := by
  unfold getOrCreate
  cases hl : tlookup t k with
  | none => rw [hl] at h; simp at h
  | some v0 => simp

theorem tlookup_getOrCreate_isSome (t : List (K × V)) (k : K) (v : V) :
    (tlookup (getOrCreate t k v).2 k).isSome := by
  unfold getOrCreate
  cases hl : tlookup t k with
  | none => simp [tlookup]
  | some v0 => simp [hl]

theorem tlookup_getOrCreate_mono {t : List (K × V)} {k1 : K} (k : K) (v : V)
    (h : (tlookup t k1).isSome) : (tlookup (getOrCreate t k v).2 k1).isSome := by
  unfold getOrCreate
  cases hl : tlookup t k with
  | none =>
    by_cases hk : k1 = k <;> simp [tlookup, hk, h]
  | some v0 => simpa using h

theorem nodup_getOrCreate {t : List (K × V)} (k : K) (v : V)
    (h : (t.map Prod.fst).Nodup) :
    (((getOrCreate t k v).2).map Prod.fst).Nodup := by
  unfold getOrCreate
  cases hl : tlookup t k with
  | none =>
    have : k ∉ t.map Prod.fst := by
      rw [← tlookup_isSome_iff, hl]
      simp
    simpa [this] using h
  | some v0 => simpa using h

end TableLemmas

/-! ## Inversion of `parseRow` -/

/-- The facts about a successfully parsed row that the claims rely on: the
two taxon slots are exactly what the category remap produced, the observer id
parsed as an integer and survived the `== ''` check (an `int`-to-`str`
comparison, always false), and the protocol name was found in the conversion
table. -/
theorem parseRow_ok {ks : List String} {row : DumpRow} {p : ParsedRow}
    (h : parseRow ks row = .ok p) :
    p.scientific_name =
      (remapTaxa ks row.category row.scientificName
        row.subspeciesScientificName).1 ∧
    p.subspecies_scientific_name =
      (remapTaxa ks row.category row.scientificName
        row.subspeciesScientificName).2 ∧
    pyIntChars (row.observerId.data.drop 4) = some p.observer_id ∧
    p.obs = some p.observer_id ∧
    protocol_words_to_code row.protocolType = some p.proto := by
  unfold parseRow at h
  repeat' split at h
  all_goals try exact Except.noConfusion h
  cases h
  refine ⟨rfl, rfl, by assumption, ?_, by assumption⟩
  simp [observerOrNone, pyEq]


/-! ## Claim C4 — date parsing -/

/-- C4 is false on the code: `parse_date` binds the split tokens as
`year, month, day`, so the claim's month-day-year reading of `"03-04-2015"`
yields `datetime(3, 4, 2015, ...)`, whose day 2015 is out of range — both
claimed input pairs raise `ValueError` instead of producing 2015-03-04
timestamps; moreover the backslash named by the claim is not a separator
(the pattern `[/\-]` escapes the hyphen), so a backslash-separated date does
not even split. -/
theorem c4_counterexample :
    parse_date "03-04-2015" = .ok (3, 4, 2015) ∧
    parse_start_duration "03-04-2015" "" "" = .error .valueError ∧
    parse_start_duration "03-04-2015" "07:30:00" "" = .error .valueError ∧
    splitPred dateSeparator ("03\\04\\2015".data) = ["03\\04\\2015".data] := by
  decide

/-- C4 amended: date tokens are split on `/` or `-` only and bound
positionally in year-month-day order, so the ISO-ordered inputs the dump
actually contains parse as expected: (date="2015-03-04", time="") gives
start 2015-03-04T00:00:00 and (date="2015-03-04", time="07:30:00") gives
start 2015-03-04T07:30:00. -/
theorem c4_amended :
    parse_date "2015-03-04" = .ok (2015, 3, 4) ∧
    parse_date "2015/03/04" = .ok (2015, 3, 4) ∧
    parse_start_duration "2015-03-04" "" "" =
      .ok (some ⟨2015, 3, 4, 0, 0, 0⟩, none) ∧
    parse_start_duration "2015-03-04" "07:30:00" "" =
      .ok (some ⟨2015, 3, 4, 7, 30, 0⟩, none) := by
  decide

/-! ## Claim C6 — protocol-name mapping -/

/-- C6: the protocol mapping sends each of the five documented names to its
documented code, is defined exactly on the fixed enumeration (the keys of
`conversion`) and nowhere else, always yields a two-character code, and a row
whose protocol name falls outside the enumeration can never parse
successfully (the `KeyError` propagates instead of the row being skipped). -/
theorem c6_protocol_mapping :
    (protocol_words_to_code "Historical" = some "62" ∧
     protocol_words_to_code "Stationary" = some "21" ∧
     protocol_words_to_code "Traveling" = some "22" ∧
     protocol_words_to_code "Incidental" = some "20" ∧
     protocol_words_to_code "Area" = some "23") ∧
    (∀ p, (protocol_words_to_code p).isSome ↔ p ∈ conversion.map Prod.fst) ∧
    (∀ p c, protocol_words_to_code p = some c → c.length = 2) ∧
    (∀ ks row q, parseRow ks row = .ok q →
      (protocol_words_to_code row.protocolType).isSome) := by
  refine ⟨by decide, fun p => tlookup_isSome_iff conversion p, ?_, ?_⟩
  · intro p c h
    have hall : ∀ x ∈ conversion, x.2.length = 2 := by decide
    exact hall _ (tlookup_mem h)
  · intro ks row q h
    obtain ⟨-, -, -, -, h5⟩ := parseRow_ok h
    simp [h5]

/-- Witness for C6 at a concrete input: `Historical` maps to a code of
length two. -/
theorem c6_witness : ("62" : String).length = 2 :=
  c6_protocol_mapping.2.2.1 "Historical" "62" (by decide)

/-! ## Claim C5 — spuh/slash/hybrid remap -/

/-- C5: for a row of category `spuh`, `slash` or `hybrid`, the assembled
Observation always carries the row's scientific name in its subspecies
reference and a null species reference, whatever the raw name fields held. -/
theorem c5_spuh_slash_hybrid {ks : List String} {row : DumpRow} {p : ParsedRow}
    (h : parseRow ks row = .ok p)
    (hcat : row.category = "spuh" ∨ row.category = "slash" ∨
      row.category = "hybrid") :
    (observationRecordOf p).species_id = none ∧
    (observationRecordOf p).subspecies_id = some row.scientificName := by
  obtain ⟨h1, h2, -, -, -⟩ := parseRow_ok h
  have hremap : remapTaxa ks row.category row.scientificName
      row.subspeciesScientificName = (none, some row.scientificName) := by
    unfold remapTaxa
    rcases hcat with h | h | h <;> simp [h]
  simp [observationRecordOf, h1, h2, hremap]

/-- Witness for C5: the concrete spuh row `wRowSpuh`. -/
theorem c5_witness :
    (observationRecordOf wParsedSpuh).species_id = none ∧
    (observationRecordOf wParsedSpuh).subspecies_id = some "Ardea sp." := by
  have h := @c5_spuh_slash_hybrid [] wRowSpuh wParsedSpuh (by decide)
    (by decide)
  simpa [wRowSpuh, wRow] using h

/-! ## Claim C2 — the species/subspecies exclusivity invariant -/

/-- C2 is false on the code: an `issf` row carrying both a species-level
scientific name and a subspecies name (the normal shape of issf rows) is
stored with **both** the species and the subspecies reference populated. -/
theorem c2_counterexample :
    wRowIssf.scientificName ≠ "" ∧
    parseRow [] wRowIssf = .ok wParsedIssf ∧
    (observationRecordOf wParsedIssf).species_id = some "Setophaga coronata" ∧
    (observationRecordOf wParsedIssf).subspecies_id =
      some "Setophaga coronata auduboni" := by
  decide

/-- C2 amended: the two taxon references of an assembled Observation are not
mutually exclusive.  The species reference is null exactly when the category
is `spuh`/`slash`/`hybrid`, or `domestic`/`form` with a scientific name that
is already a known subspecies; the subspecies reference carries the row's
scientific name for `spuh`/`slash`/`hybrid` and otherwise the row's raw
subspecies field (null when empty).  In particular both can be populated
(issf rows) and both can be null (a known `domestic`/`form` name with an
empty subspecies field). -/
theorem c2_amended {ks : List String} {row : DumpRow} {p : ParsedRow}
    (h : parseRow ks row = .ok p) :
    ((observationRecordOf p).species_id = none ↔
      ((row.category = "spuh" ∨ row.category = "slash" ∨
        row.category = "hybrid") ∨
       ((row.category = "domestic" ∨ row.category = "form") ∧
        row.scientificName ∈ ks))) ∧
    ((observationRecordOf p).subspecies_id =
      if row.category = "spuh" ∨ row.category = "slash" ∨
          row.category = "hybrid" then
        some row.scientificName
      else if row.subspeciesScientificName = "" then none
      else some row.subspeciesScientificName) := by
  obtain ⟨h1, h2, -, -, -⟩ := parseRow_ok h
  have hs : (observationRecordOf p).species_id =
      (remapTaxa ks row.category row.scientificName
        row.subspeciesScientificName).1 := by
    simp [observationRecordOf, h1]
  have hss : (observationRecordOf p).subspecies_id =
      (remapTaxa ks row.category row.scientificName
        row.subspeciesScientificName).2 := by
    simp [observationRecordOf, h2]
  by_cases hA : row.category = "spuh" ∨ row.category = "slash" ∨
      row.category = "hybrid"
  · simp [hs, hss, remapTaxa, hA]
  · by_cases hB : row.category = "domestic" ∨ row.category = "form"
    · by_cases hC : row.scientificName ∈ ks
      · simp [hs, hss, remapTaxa, hA, hB, hC]
      · simp [hs, hss, remapTaxa, hA, hB, hC]
    · simp [hs, hss, remapTaxa, hA, hB]

/-- Witness for C2 (amended) at the concrete issf row. -/
theorem c2_witness :
    (observationRecordOf wParsedIssf).subspecies_id =
      some "Setophaga coronata auduboni" := by
  have h := @c2_amended [] wRowIssf wParsedIssf (by decide)
  rw [h.2]
  decide

/-! ## Claim C1 — domestic/form remap -/

/-- C1 is false on the code: for a `domestic` row whose scientific name is a
known subspecies, the species reference is indeed nulled, but the scientific
name is **not** copied into the subspecies reference (that assignment is
commented out in the source) — with an empty raw subspecies field the
assembled Observation ends up with both references null instead of a
subspecies reference carrying the name. -/
theorem c1_counterexample :
    wRowDom.scientificName ∈ ksDom ∧
    parseRow ksDom wRowDom = .ok wParsedDom ∧
    (observationRecordOf wParsedDom).species_id = none ∧
    (observationRecordOf wParsedDom).subspecies_id = none := by
  decide

/-- C1 amended: for `domestic`/`form` rows the species reference is nulled
exactly when the scientific name is already a known subspecies, but in both
cases the subspecies reference is just the row's raw subspecies field (null
when empty) — the scientific name itself is never moved into it. -/
theorem c1_amended {ks : List String} {row : DumpRow} {p : ParsedRow}
    (h : parseRow ks row = .ok p)
    (hcat : row.category = "domestic" ∨ row.category = "form") :
    (row.scientificName ∈ ks →
      (observationRecordOf p).species_id = none) ∧
    (row.scientificName ∉ ks →
      (observationRecordOf p).species_id = some row.scientificName) ∧
    (observationRecordOf p).subspecies_id =
      (if row.subspeciesScientificName = "" then none
       else some row.subspeciesScientificName) := by
  obtain ⟨h1, h2, -, -, -⟩ := parseRow_ok h
  have hA : ¬(row.category = "spuh" ∨ row.category = "slash" ∨
      row.category = "hybrid") := by
    rcases hcat with h | h <;> simp [h]
  refine ⟨fun hC => ?_, fun hC => ?_, ?_⟩
  · simp [observationRecordOf, h1, remapTaxa, hA, hcat, hC]
  · simp [observationRecordOf, h1, remapTaxa, hA, hcat, hC]
  · by_cases hC : row.scientificName ∈ ks <;>
      simp [observationRecordOf, h2, remapTaxa, hA, hcat, hC]

/-- Witness for C1 (amended) at the concrete domestic row. -/
theorem c1_witness :
    (observationRecordOf wParsedDom).species_id = none := by
  have h := @c1_amended ksDom wRowDom wParsedDom (by decide) (by decide)
  exact h.1 (by decide)

/-! ## Claim C9 — the observer reference is never null -/

/-- C9: the observer id is passed through `int()` before the `== ''` check,
so that check compares an `int` with a `str` and is always false — every
successfully parsed row stores a non-null observer reference, even though
the `observer_id` column of the data model is nullable. -/
theorem c9_observer_never_null {ks : List String} {row : DumpRow}
    {p : ParsedRow} (h : parseRow ks row = .ok p) :
    (observationRecordOf p).observer_id = some p.observer_id ∧
    pyIntChars (row.observerId.data.drop 4) = some p.observer_id := by
  obtain ⟨-, -, h3, h4, -⟩ := parseRow_ok h
  exact ⟨by simp [observationRecordOf, h4], h3⟩

/-- Witness for C9 at the concrete row `wRow` (observer `obsr123`). -/
theorem c9_witness :
    (observationRecordOf wParsed).observer_id = some wParsed.observer_id ∧
    pyIntChars (wRow.observerId.data.drop 4) = some wParsed.observer_id :=
  @c9_observer_never_null [] wRow wParsed (by decide)

/-! ## Claim C8 — taxonomy parent resolution -/

/-- One loader step extends the running `species_codes` table with the
current row's code before anything else. -/
theorem taxStep_codes {acc : TaxAcc} {r : TaxRow} {acc1 : TaxAcc}
    (h : taxStep acc r = .ok acc1) :
    acc1.species_codes =
      dictInsert r.speciesCode (r.sciName, r.taxonOrder) acc.species_codes := by
  unfold taxStep at h
  cases hd : parseDecimal r.taxonOrder with
  | none => simp only [hd] at h; exact Except.noConfusion h
  | some taxa =>
    simp only [hd] at h
    cases hp : resolveParent
        (dictInsert r.speciesCode (r.sciName, r.taxonOrder) acc.species_codes)
        r.reportAs with
    | error e => simp only [hp] at h; exact Except.noConfusion h
    | ok par =>
      simp only [hp] at h
      by_cases hc : r.category = "species" <;> simp only [hc] at h <;>
        simp at h <;> rw [← h]

/-- After folding the loader over a prefix, `species_codes` is exactly the
table built row by row from that prefix. -/
theorem taxFold_codes {rows : List TaxRow} :
    ∀ {acc acc1 : TaxAcc}, taxFold acc rows = .ok acc1 →
      acc1.species_codes =
        rows.foldl (fun d r => dictInsert r.speciesCode (r.sciName, r.taxonOrder) d)
          acc.species_codes := by
  induction rows with
  | nil =>
    intro acc acc1 h
    cases h
    rfl
  | cons r rs ih =>
    intro acc acc1 h
    unfold taxFold at h
    cases hs : taxStep acc r with
    | error e => simp only [hs] at h; exact Except.noConfusion h
    | ok acc2 =>
      simp only [hs] at h
      rw [List.foldl_cons, ← taxStep_codes hs]
      exact ih h

/-- Folding the loader over an append runs it over the prefix first. -/
theorem taxFold_append_ok {xs : List TaxRow} :
    ∀ {a b : TaxAcc}, taxFold a xs = .ok b →
      ∀ ys, taxFold a (xs ++ ys) = taxFold b ys := by
  induction xs with
  | nil =>
    intro a b h ys
    cases h
    rfl
  | cons x rest ih =>
    intro a b h ys
    rw [List.cons_append]
    simp only [taxFold] at h ⊢
    cases hs : taxStep a x with
    | error e => simp only [hs] at h; exact Except.noConfusion h
    | ok c =>
      simp only [hs] at h ⊢
      exact ih h ys

/-- C8: when the loader reaches a row `r` with a non-empty parent code, it
resolves the parent against the id table built from the rows at or before `r`
in file order (`buildCodes (pre ++ [r])` — the current row's own code is
recorded first).  If the code is absent from that table the whole load aborts
with the `KeyError` instead of producing a record; if it is present, the step
succeeds and files `r` (when it is not a `species`) into the subspecies dict
with the parent's canonical scientific name. -/
theorem c8_parent_resolution (pre : List TaxRow) (r : TaxRow)
    (post : List TaxRow) (acc : TaxAcc) (q : Dec)
    (hpre : taxFold initTaxAcc pre = .ok acc)
    (hq : parseDecimal r.taxonOrder = some q)
    (hne : r.reportAs ≠ "") :
    (tlookup (buildCodes (pre ++ [r])) r.reportAs = none →
      parse_ebird_taxonomy (pre ++ r :: post) = .error (.keyError r.reportAs)) ∧
    (∀ nm ord, tlookup (buildCodes (pre ++ [r])) r.reportAs = some (nm, ord) →
      r.category ≠ "species" →
      ∃ acc1, taxStep acc r = .ok acc1 ∧
        tlookup acc1.subspecies q =
          some ⟨r.commonName, r.sciName, r.category, some nm, r.speciesCode⟩) := by
  have hcodes : acc.species_codes = buildCodes pre := by
    have := taxFold_codes hpre
    simpa [buildCodes, initTaxAcc] using this
  have hins : dictInsert r.speciesCode (r.sciName, r.taxonOrder)
      acc.species_codes = buildCodes (pre ++ [r]) := by
    rw [hcodes]
    simp [buildCodes, List.foldl_append]
  constructor
  · intro hnone
    have hpar : resolveParent
        (dictInsert r.speciesCode (r.sciName, r.taxonOrder) acc.species_codes)
        r.reportAs = .error (.keyError r.reportAs) := by
      unfold resolveParent
      rw [hins, hnone]
      simp [hne]
    have hstep : taxStep acc r = .error (.keyError r.reportAs) := by
      unfold taxStep
      simp only [hq, hpar]
    have hsplit := taxFold_append_ok hpre (r :: post)
    unfold parse_ebird_taxonomy
    rw [hsplit]
    unfold taxFold
    simp only [hstep]
  · intro nm ord hsome hcat
    have hpar : resolveParent
        (dictInsert r.speciesCode (r.sciName, r.taxonOrder) acc.species_codes)
        r.reportAs = .ok (some nm) := by
      unfold resolveParent
      rw [hins, hsome]
      simp [hne]
    refine ⟨{ acc with
        subspecies := dictInsert q
          ⟨r.commonName, r.sciName, r.category, some nm, r.speciesCode⟩
          acc.subspecies
        species_codes := dictInsert r.speciesCode (r.sciName, r.taxonOrder)
          acc.species_codes }, ?_, ?_⟩
    · unfold taxStep
      simp only [hq, hpar]
      simp [hcat]
    · exact tlookup_dictInsert_self _ _ _


/-- Witness for C8: the concrete domestic row resolves its parent to the
mallard defined one row earlier and is filed as a subspecies with that
parent. -/
theorem c8_witness :
    ∃ acc1, taxStep wTaxAcc wTaxRowR = .ok acc1 ∧
      tlookup acc1.subspecies ⟨51, 1⟩ =
        some ⟨"Mallard (Domestic type)", "Anas platyrhynchos (Domestic type)",
          "domestic", some "Anas platyrhynchos", "x00776"⟩ :=
  (c8_parent_resolution [wTaxRow0] wTaxRowR [] wTaxAcc ⟨51, 1⟩ (by decide)
    (by decide) (by decide)).2 "Anas platyrhynchos" "5" (by decide) (by decide)

/-! ## Claim C10 — location deduplication is keyed on coordinates only -/

/-- C10: `get_or_create` for `Location` filters only on `coords`, so when two
rows carry the same point, the location created for the first row is returned
for the second unchanged — the second row's locality, country, state and
county values never reach the table (its record stays the one built from the
first row's values). -/
theorem c10_location_dedup {ks : List String} {r1 r2 : DumpRow}
    {p1 p2 : ParsedRow}
    (_h1 : parseRow ks r1 = .ok p1) (_h2 : parseRow ks r2 = .ok p2)
    (hc : p2.coords = p1.coords) :
    tlookup (updateStore (updateStore emptyStore p1) p2).locations p1.coords =
      some (locationRecordOf p1) ∧
    (updateStore (updateStore emptyStore p1) p2).locations =
      (updateStore emptyStore p1).locations := by
  have e1 : (updateStore emptyStore p1).locations =
      [(p1.coords, locationRecordOf p1)] := by
    simp [updateStore, emptyStore, getOrCreate, tlookup]
  have hlook : tlookup (updateStore emptyStore p1).locations p2.coords =
      some (locationRecordOf p1) := by
    rw [e1, hc]
    simp [tlookup]
  have e2 : (updateStore (updateStore emptyStore p1) p2).locations =
      (getOrCreate (updateStore emptyStore p1).locations p2.coords
        (locationRecordOf p2)).2 := rfl
  have hkeep : (getOrCreate (updateStore emptyStore p1).locations p2.coords
      (locationRecordOf p2)).2 = (updateStore emptyStore p1).locations :=
    getOrCreate_table_of_isSome _ (by simp [hlook])
  refine ⟨?_, by rw [e2, hkeep]⟩
  rw [e2, hkeep, e1]
  simp [tlookup]


/-- Witness for C10: the two concrete rows share coordinates, and after both
are ingested the single location record still carries the first row's
locality, country, state and county. -/
theorem c10_witness :
    tlookup (updateStore (updateStore emptyStore wParsed) wParsed2).locations
      wParsed.coords = some (locationRecordOf wParsed) ∧
    (updateStore (updateStore emptyStore wParsed) wParsed2).locations =
      (updateStore emptyStore wParsed).locations :=
  @c10_location_dedup [] wRow wRow2 wParsed wParsed2 (by decide) (by decide)
    (by decide)

/-! ## Claim C3 — idempotence of the whole pipeline

The proof plan: a single `get_or_create` is the identity on a table that
already holds the key; one pipeline run leaves every key it resolved present
in the final store; hence a second run over the same input performs only
lookups and returns the same store, with still exactly one record per key. -/

section GocFoldLemmas

variable {K V A : Type} [DecidableEq K] (key : A → K) (val : A → V)

theorem gocFold_mono {t : List (K × V)} {k : K} (l : List A)
    (h : (tlookup t k).isSome) :
    (tlookup (gocFold key val t l) k).isSome := by
  induction l generalizing t with
  | nil => exact h
  | cons a rest ih => exact ih (tlookup_getOrCreate_mono _ _ h)

theorem gocFold_keys (t : List (K × V)) (l : List A) :
    ∀ a ∈ l, (tlookup (gocFold key val t l) (key a)).isSome := by
  induction l generalizing t with
  | nil => intro a ha; cases ha
  | cons b rest ih =>
    intro a ha
    rcases List.mem_cons.mp ha with rfl | hmem
    · exact gocFold_mono key val rest (tlookup_getOrCreate_isSome _ _ _)
    · exact ih _ a hmem

theorem gocFold_of_present {t : List (K × V)} (l : List A)
    (h : ∀ a ∈ l, (tlookup t (key a)).isSome) :
    gocFold key val t l = t := by
  induction l with
  | nil => rfl
  | cons a rest ih =>
    show gocFold key val (getOrCreate t (key a) (val a)).2 rest = t
    rw [getOrCreate_table_of_isSome _ (h a (List.mem_cons_self a rest))]
    exact ih (fun b hb => h b (List.mem_cons_of_mem a hb))

theorem gocFold_nodup {t : List (K × V)} (l : List A) (h : tableNodup t) :
    tableNodup (gocFold key val t l) := by
  induction l generalizing t with
  | nil => exact h
  | cons a rest ih => exact ih (nodup_getOrCreate _ _ h)

end GocFoldLemmas

/-- After ingesting a row, every key that row resolves is present. -/
theorem updateStore_hasRowKeys_self (s : Store) (p : ParsedRow) :
    (updateStore s p).hasRowKeys p := by
  refine ⟨tlookup_getOrCreate_isSome _ _ _, tlookup_getOrCreate_isSome _ _ _,
    tlookup_getOrCreate_isSome _ _ _, tlookup_getOrCreate_isSome _ _ _,
    ?_, tlookup_getOrCreate_isSome _ _ _, tlookup_getOrCreate_isSome _ _ _,
    tlookup_getOrCreate_isSome _ _ _⟩
  intro oid hoid
  have ho : (updateStore s p).observers = (getOrCreate s.observers oid ()).2 := by
    show (match p.obs with
      | none => s.observers
      | some oid2 => (getOrCreate s.observers oid2 ()).2) = _
    rw [hoid]
  rw [ho]
  exact tlookup_getOrCreate_isSome _ _ _

/-- Ingesting a row never removes a key that was already present. -/
theorem updateStore_hasRowKeys_mono {s : Store} {q : ParsedRow} (p : ParsedRow)
    (h : s.hasRowKeys q) : (updateStore s p).hasRowKeys q := by
  obtain ⟨h1, h2, h3, h4, h5, h6, h7, h8⟩ := h
  refine ⟨tlookup_getOrCreate_mono _ _ h1, tlookup_getOrCreate_mono _ _ h2,
    tlookup_getOrCreate_mono _ _ h3, tlookup_getOrCreate_mono _ _ h4,
    ?_, tlookup_getOrCreate_mono _ _ h6, tlookup_getOrCreate_mono _ _ h7,
    tlookup_getOrCreate_mono _ _ h8⟩
  intro oid hoid
  have h5o := h5 oid hoid
  cases hobs : p.obs with
  | none =>
    have ho : (updateStore s p).observers = s.observers := by
      show (match p.obs with
        | none => s.observers
        | some oid2 => (getOrCreate s.observers oid2 ()).2) = _
      rw [hobs]
    rw [ho]
    exact h5o
  | some oid2 =>
    have ho : (updateStore s p).observers =
        (getOrCreate s.observers oid2 ()).2 := by
      show (match p.obs with
        | none => s.observers
        | some oid3 => (getOrCreate s.observers oid3 ()).2) = _
      rw [hobs]
    rw [ho]
    exact tlookup_getOrCreate_mono _ _ h5o

/-- On a store that already holds every key of the row, ingesting the row is
a no-op: each `get_or_create` resolves the existing record and inserts
nothing. -/
theorem updateStore_of_hasRowKeys {s : Store} {p : ParsedRow}
    (h : s.hasRowKeys p) : updateStore s p = s := by
  obtain ⟨h1, h2, h3, h4, h5, h6, h7, h8⟩ := h
  have ho : (match p.obs with
      | none => s.observers
      | some oid => (getOrCreate s.observers oid ()).2) = s.observers := by
    cases hobs : p.obs with
    | none => rfl
    | some oid => exact getOrCreate_table_of_isSome _ (h5 oid hobs)
  unfold updateStore
  rw [getOrCreate_table_of_isSome _ h1, getOrCreate_table_of_isSome _ h2,
    getOrCreate_table_of_isSome _ h3, getOrCreate_table_of_isSome _ h4, ho,
    getOrCreate_table_of_isSome _ h6, getOrCreate_table_of_isSome _ h7,
    getOrCreate_table_of_isSome _ h8]

/-- Ingesting a row keeps every table duplicate-free. -/
theorem updateStore_nodup {s : Store} (p : ParsedRow) (h : s.NodupKeys) :
    (updateStore s p).NodupKeys := by
  obtain ⟨n1, n2, n3, n4, n5, n6, n7, n8, n9, n10⟩ := h
  refine ⟨nodup_getOrCreate _ _ n1, nodup_getOrCreate _ _ n2,
    nodup_getOrCreate _ _ n3, nodup_getOrCreate _ _ n4, ?_, n6, n7,
    nodup_getOrCreate _ _ n8, nodup_getOrCreate _ _ n9,
    nodup_getOrCreate _ _ n10⟩
  show tableNodup (match p.obs with
    | none => s.observers
    | some oid => (getOrCreate s.observers oid ()).2)
  cases p.obs with
  | none => exact n5
  | some oid => exact nodup_getOrCreate _ _ n5

/-- Keys present before a successful row loop are present after it. -/
theorem processDump_mono {ks : List String} {rows : List DumpRow} :
    ∀ {s s2 : Store}, processDump ks s rows = .ok s2 →
      ∀ {q : ParsedRow}, s.hasRowKeys q → s2.hasRowKeys q := by
  induction rows with
  | nil =>
    intro s s2 h q hq
    cases h
    exact hq
  | cons r rs ih =>
    intro s s2 h q hq
    unfold processDump at h
    cases hp : parseRow ks r with
    | error e => simp only [hp] at h; exact Except.noConfusion h
    | ok p =>
      simp only [hp] at h
      exact ih h (updateStore_hasRowKeys_mono p hq)

/-- A successful row loop keeps every table duplicate-free. -/
theorem processDump_nodup {ks : List String} {rows : List DumpRow} :
    ∀ {s s2 : Store}, processDump ks s rows = .ok s2 →
      s.NodupKeys → s2.NodupKeys := by
  induction rows with
  | nil =>
    intro s s2 h hn
    cases h
    exact hn
  | cons r rs ih =>
    intro s s2 h hn
    unfold processDump at h
    cases hp : parseRow ks r with
    | error e => simp only [hp] at h; exact Except.noConfusion h
    | ok p =>
      simp only [hp] at h
      exact ih h (updateStore_nodup p hn)

/-- The row loop never touches the species and subspecies tables. -/
theorem processDump_species_subsp {ks : List String} {rows : List DumpRow} :
    ∀ {s s2 : Store}, processDump ks s rows = .ok s2 →
      s2.species = s.species ∧ s2.subspecies = s.subspecies := by
  induction rows with
  | nil =>
    intro s s2 h
    cases h
    exact ⟨rfl, rfl⟩
  | cons r rs ih =>
    intro s s2 h
    unfold processDump at h
    cases hp : parseRow ks r with
    | error e => simp only [hp] at h; exact Except.noConfusion h
    | ok p =>
      simp only [hp] at h
      have hh := ih h
      exact hh

/-- After a successful row loop, every key of every row of the input is
present in the final store. -/
theorem processDump_keys {ks : List String} {rows : List DumpRow} :
    ∀ {s s2 : Store}, processDump ks s rows = .ok s2 →
      ∀ r ∈ rows, ∀ {p : ParsedRow}, parseRow ks r = .ok p →
        s2.hasRowKeys p := by
  induction rows with
  | nil =>
    intro s s2 h r hr
    cases hr
  | cons r0 rs ih =>
    intro s s2 h r hr p hp
    unfold processDump at h
    cases hp0 : parseRow ks r0 with
    | error e => simp only [hp0] at h; exact Except.noConfusion h
    | ok p0 =>
      simp only [hp0] at h
      rcases List.mem_cons.mp hr with rfl | hmem
      · have hpp : p0 = p := by
          have := hp0.symm.trans hp
          injection this
        subst hpp
        exact processDump_mono h (updateStore_hasRowKeys_self s p0)
      · exact ih h r hmem hp

/-- Re-running the row loop over the same input from its own result is a
no-op returning that same result. -/
theorem processDump_idem {ks : List String} {rows : List DumpRow} :
    ∀ {s s2 : Store}, processDump ks s rows = .ok s2 →
      processDump ks s2 rows = .ok s2 := by
  induction rows with
  | nil =>
    intro s s2 h
    cases h
    rfl
  | cons r rs ih =>
    intro s s2 h
    unfold processDump at h
    cases hp : parseRow ks r with
    | error e => simp only [hp] at h; exact Except.noConfusion h
    | ok p =>
      simp only [hp] at h
      have hkeys : s2.hasRowKeys p :=
        processDump_mono h (updateStore_hasRowKeys_self s p)
      unfold processDump
      simp only [hp]
      rw [updateStore_of_hasRowKeys hkeys]
      exact ih h

/-- The subspecies half of the taxonomy load touches only the subspecies
table. -/
theorem subspToDb_fields {l : List (Dec × SubspInfo)} :
    ∀ {s s1 : Store}, subspToDb s l = .ok s1 →
      s1.countries = s.countries ∧ s1.states = s.states ∧
      s1.counties = s.counties ∧ s1.localities = s.localities ∧
      s1.observers = s.observers ∧ s1.species = s.species ∧
      s1.locations = s.locations ∧ s1.checklists = s.checklists ∧
      s1.observations = s.observations := by
  induction l with
  | nil =>
    intro s s1 h
    cases h
    exact ⟨rfl, rfl, rfl, rfl, rfl, rfl, rfl, rfl, rfl⟩
  | cons kv rest ih =>
    intro s s1 h
    unfold subspToDb at h
    cases hc : tlookup catList kv.2.category with
    | none => simp only [hc] at h; exact Except.noConfusion h
    | some c =>
      simp only [hc] at h
      have hh := ih h
      exact hh

/-- The subspecies half of the taxonomy load never removes a subspecies
key. -/
theorem subspToDb_mono {l : List (Dec × SubspInfo)} :
    ∀ {s s1 : Store} {k : String}, subspToDb s l = .ok s1 →
      (tlookup s.subspecies k).isSome → (tlookup s1.subspecies k).isSome := by
  induction l with
  | nil =>
    intro s s1 k h hk
    cases h
    exact hk
  | cons kv rest ih =>
    intro s s1 k h hk
    unfold subspToDb at h
    cases hc : tlookup catList kv.2.category with
    | none => simp only [hc] at h; exact Except.noConfusion h
    | some c =>
      simp only [hc] at h
      exact ih h (tlookup_getOrCreate_mono _ _ hk)

/-- After the subspecies load succeeds, every loaded scientific name has a
record. -/
theorem subspToDb_keys {l : List (Dec × SubspInfo)} :
    ∀ {s s1 : Store}, subspToDb s l = .ok s1 →
      ∀ kv ∈ l, (tlookup s1.subspecies kv.2.scientific_name).isSome := by
  induction l with
  | nil =>
    intro s s1 h kv hkv
    cases hkv
  | cons kv0 rest ih =>
    intro s s1 h kv hkv
    unfold subspToDb at h
    cases hc : tlookup catList kv0.2.category with
    | none => simp only [hc] at h; exact Except.noConfusion h
    | some c =>
      simp only [hc] at h
      rcases List.mem_cons.mp hkv with rfl | hmem
      · exact subspToDb_mono h (tlookup_getOrCreate_isSome _ _ _)
      · exact ih h kv hmem

/-- Re-running the subspecies load on a store that already holds every loaded
name is a no-op (given that some earlier run of it succeeded, so every
category converts). -/
theorem subspToDb_idem {l : List (Dec × SubspInfo)} :
    ∀ {s0 s1 s : Store}, subspToDb s0 l = .ok s1 →
      (∀ kv ∈ l, (tlookup s.subspecies kv.2.scientific_name).isSome) →
      subspToDb s l = .ok s := by
  induction l with
  | nil =>
    intro s0 s1 s h hpres
    rfl
  | cons kv rest ih =>
    intro s0 s1 s h hpres
    unfold subspToDb at h ⊢
    cases hc : tlookup catList kv.2.category with
    | none => simp only [hc] at h; exact Except.noConfusion h
    | some c =>
      simp only [hc] at h ⊢
      rw [getOrCreate_table_of_isSome _ (hpres kv (List.mem_cons_self kv rest))]
      exact ih h (fun kv2 hkv2 => hpres kv2 (List.mem_cons_of_mem kv hkv2))

/-- The subspecies load keeps every table duplicate-free. -/
theorem subspToDb_nodup {l : List (Dec × SubspInfo)} :
    ∀ {s s1 : Store}, subspToDb s l = .ok s1 → s.NodupKeys → s1.NodupKeys := by
  induction l with
  | nil =>
    intro s s1 h hn
    cases h
    exact hn
  | cons kv rest ih =>
    intro s s1 h hn
    unfold subspToDb at h
    cases hc : tlookup catList kv.2.category with
    | none => simp only [hc] at h; exact Except.noConfusion h
    | some c =>
      simp only [hc] at h
      obtain ⟨n1, n2, n3, n4, n5, n6, n7, n8, n9, n10⟩ := hn
      exact ih h ⟨n1, n2, n3, n4, n5, n6, nodup_getOrCreate _ _ n7, n8, n9, n10⟩

/-- The species load keeps every table duplicate-free. -/
theorem speciesToDb_nodup {s : Store} {l : List (Dec × SpeciesInfo)}
    (hn : s.NodupKeys) : (speciesToDb s l).NodupKeys := by
  obtain ⟨n1, n2, n3, n4, n5, n6, n7, n8, n9, n10⟩ := hn
  exact ⟨n1, n2, n3, n4, n5, gocFold_nodup _ _ _ n6, n7, n8, n9, n10⟩

/-- C3: running the whole pipeline (optional taxonomy load followed by the
row loop) a second time over the same input, starting from the store the
first run produced, resolves every key to its already-stored record — it
returns exactly the same store, with no error and no duplicate, so every
entity's final row count equals that of a single run, and there is exactly
one canonical record per natural key. -/
theorem c3_pipeline_idempotent (taxa : Option (List TaxRow))
    (rows : List DumpRow) (s s2 : Store) (hnd : s.NodupKeys)
    (h : pipeline taxa rows s = .ok s2) :
    pipeline taxa rows s2 = .ok s2 ∧ s2.NodupKeys := by
  cases taxa with
  | none =>
    unfold pipeline at h ⊢
    have hss := processDump_species_subsp h
    refine ⟨?_, processDump_nodup h hnd⟩
    rw [hss.2]
    exact processDump_idem h
  | some trs =>
    unfold pipeline at h ⊢
    cases hacc : parse_ebird_taxonomy trs with
    | error e => simp only [hacc] at h; exact Except.noConfusion h
    | ok acc =>
      simp only [hacc] at h ⊢
      cases htx : taxaToDb s acc with
      | error e => simp only [htx] at h; exact Except.noConfusion h
      | ok s1 =>
        simp only [htx] at h
        unfold taxaToDb at htx
        obtain ⟨-, -, -, -, -, hsp, -, -, -⟩ := subspToDb_fields htx
        have hpdss := processDump_species_subsp h
        have hsp2keys : ∀ kv ∈ acc.species,
            (tlookup s2.species (spKey kv)).isSome := by
          intro kv hkv
          rw [hpdss.1, hsp]
          exact gocFold_keys spKey spVal s.species acc.species kv hkv
        have hspecies2 : speciesToDb s2 acc.species = s2 := by
          unfold speciesToDb
          rw [gocFold_of_present _ _ _ hsp2keys]
        have hsubkeys : ∀ kv ∈ acc.subspecies,
            (tlookup s2.subspecies kv.2.scientific_name).isSome := by
          intro kv hkv
          rw [hpdss.2]
          exact subspToDb_keys htx kv hkv
        have htx2 : taxaToDb s2 acc = .ok s2 := by
          unfold taxaToDb
          rw [hspecies2]
          exact subspToDb_idem htx hsubkeys
        refine ⟨?_, ?_⟩
        · simp only [htx2]
          rw [hpdss.2]
          exact processDump_idem h
        · exact processDump_nodup h
            (subspToDb_nodup htx (speciesToDb_nodup hnd))


/-- Witness for C3: on the concrete input the second run reproduces the first
run's store exactly, which has one record per key. -/
theorem c3_witness :
    pipeline (some [wTaxRow0, wTaxRowR]) [wRow] wStore = .ok wStore ∧
    wStore.NodupKeys :=
  c3_pipeline_idempotent (some [wTaxRow0, wTaxRowR]) [wRow] emptyStore wStore
    (by decide) (by decide)

/-! ## Claim C7 — commit-before-propagate on processing faults -/


/-- C7 fails on the code for the unrecognized-protocol fault it explicitly
includes: the `KeyError` raised by the protocol dict lookup is caught by the
missing-column handler of line 299, which re-raises **without** committing —
after a valid first row, the run ends with the staged work lost (`committed`
still the initial store).  A malformed scalar field, by contrast, reaches the
generic handler of line 306 and does commit the staged work before
propagating, as the claim says. -/
theorem c7_fault_commit_behaviour :
    (runDump [] 0 emptyStore [wRow, wRowBadProto]).outcome =
      some (.keyError "Bogus Protocol") ∧
    (runDump [] 0 emptyStore [wRow, wRowBadProto]).committed = emptyStore ∧
    (runDump [] 0 emptyStore [wRow, wRowBadDuration]).outcome =
      some .valueError ∧
    (runDump [] 0 emptyStore [wRow, wRowBadDuration]).committed =
      updateStore emptyStore wParsed := by
  decide

end EBird
